import Mathlib

/-!
Shallow embedding of the EmotiSense repository (facial emotion aggregation,
voice-feature interpretation, feedback composition, and the upload handler's
scratch-path computation), together with theorems settling the specification
claims.  Python floats are modelled as rationals; Python exceptions are
modelled with `Option`; Python dicts keyed by first-insertion order are
modelled as association lists.
-/

namespace EmotiSense

/-! ## Python-semantics helpers -/

/-- Keys of a Python `Counter`/dict in first-encounter order:
first occurrence of each element, preserving order of first appearance. -/
def firstKeys : List String → List String
  | [] => []
  | x :: xs => x :: (firstKeys xs).filter (fun y => y ≠ x)

/-- Model of `Counter(l).most_common(1)[0][0]`: an element of maximal
multiplicity, ties broken by first-encounter order. -/
def mostCommon (l : List String) : String :=
  match firstKeys l with
  | [] => ""
  | x :: xs => xs.foldl (fun best y => if l.count best < l.count y then y else best) x

/-- Round-half-to-even on rationals, the rounding rule of Python's `round`. -/
def roundHalfEven (q : ℚ) : ℤ :=
  if q - ⌊q⌋ < 1/2 then ⌊q⌋
  else if 1/2 < q - ⌊q⌋ then ⌊q⌋ + 1
  else if ⌊q⌋ % 2 = 0 then ⌊q⌋ else ⌊q⌋ + 1

/-- Model of Python's `round(x, 2)`. -/
def pyRound2 (q : ℚ) : ℚ := (roundHalfEven (q * 100) : ℚ) / 100

/-- Whether the pattern (first list) occurs at the head of the text (second list). -/
def leadsWith : List Char → List Char → Bool
  | [], _ => true
  | _ :: _, [] => false
  | p :: ps, c :: cs => p == c && leadsWith ps cs

/-- Whether the pattern (first list) occurs anywhere inside the text (second list). -/
def occursIn : List Char → List Char → Bool
  | p, [] => p.isEmpty
  | p, c :: cs => leadsWith p (c :: cs) || occursIn p cs

/-- Model of Python's substring test `sub in s`. -/
def strContains (s sub : String) : Bool := occursIn sub.toList s.toList

/-- Model of Python's `str.lower()` for the ASCII strings this program builds. -/
def pyLower (s : String) : String :=
  String.mk (s.toList.map Char.toLower)

/-- Model of Python's `str.capitalize()`: first character uppercased, the
rest lowercased. -/
def pyCapitalize (s : String) : String :=
  match s.toList with
  | [] => ""
  | c :: cs => String.mk (c.toUpper :: cs.map Char.toLower)

/-- Model of Python's `"%.1f"`-style formatting used for the dominant-emotion
percentage (value rounded half-to-even to one decimal, rendered with one
digit after the point; only used on non-negative percentages). -/
def formatPct1 (q : ℚ) : String :=
  let n := roundHalfEven (q * 10)
  toString (n / 10) ++ "." ++ toString (n % 10)

/-- Arithmetic mean of a list of rationals (model of `np.mean`). -/
def listMean (l : List ℚ) : ℚ := l.sum / l.length

/-! ## Data model (facial side) -/

/-- One sampled, successfully classified frame
(`facial_analyzer.py`, the dict appended to `emotions_detected`). -/
structure FrameEmotion where
  frame : Nat
  timestamp : ℚ
  emotion : String
  scores : List (String × ℚ)
deriving DecidableEq

/-- One entry of the coarse timeline
(`facial_analyzer.py`, `_create_timeline`). -/
structure TimelineSegment where
  segment : Nat
  start_time : ℚ
  end_time : ℚ
  emotion : String
deriving DecidableEq

/-- The facial error variant `{'error', 'duration', 'frames_analyzed'}`. -/
structure FacialError where
  error : String
  duration : ℚ
  frames_analyzed : Nat
deriving DecidableEq

/-- The successful facial summary returned by `FacialAnalyzer.analyze_video`. -/
structure FacialSummary where
  duration : ℚ
  frames_analyzed : Nat
  total_frames : Nat
  dominant_emotion : String
  emotion_percentages : List (String × ℚ)
  average_scores : List (String × ℚ)
  timeline : List TimelineSegment
deriving DecidableEq

/-- Result of facial analysis: the error-variant dict or the full summary
(the Python code signals the variant by the presence of the `error` key). -/
inductive FacialResult where
  | failed : FacialError → FacialResult
  | ok : FacialSummary → FacialResult
deriving DecidableEq

/-! ## Emotion Aggregator (`facial_analyzer.py`) -/

/-- Embedding of `emotion_percentages` in `analyze_video`:
`{emotion: (count / total_detections) * 100 for emotion, count in emotion_counts.items()}`,
keys in first-encounter order as a Python `Counter` yields them. -/
def emotionPercentages (emos : List String) : List (String × ℚ) :=
  (firstKeys emos).map (fun e => (e, ((emos.count e : ℚ) / (emos.length : ℚ)) * 100))

/-- Embedding of `FacialAnalyzer._calculate_average_scores`.  The Python code
indexes `emotions_detected[0]` (an `IndexError` on an empty list) and each
frame's score dict by every key of the first frame (a `KeyError` when a later
frame lacks a key); both possible exceptions are modelled by `none`. -/
def calculateAverageScores (emos : List FrameEmotion) : Option (List (String × ℚ)) :=
  match emos with
  | [] => none
  | e0 :: _ =>
    (e0.scores.map Prod.fst).mapM (fun k =>
      (emos.mapM (fun (e : FrameEmotion) => e.scores.lookup k)).map
        (fun vs => (k, pyRound2 (listMean vs))))

/-- Embedding of `FacialAnalyzer._create_timeline`: split `[0, duration)` into
`numSegments` equal half-open segments, give each the most common emotion of
the frames whose timestamp falls inside it (or `"neutral"` when none does),
and store its boundaries rounded to two decimals. -/
def createTimeline (emos : List FrameEmotion) (duration : ℚ) (numSegments : Nat) :
    List TimelineSegment :=
  if emos.isEmpty then []
  else
    let segmentDuration := duration / (numSegments : ℚ)
    (List.range numSegments).map (fun (i : Nat) =>
      let segmentStart := (i : ℚ) * segmentDuration
      let segmentEnd := ((i : ℚ) + 1) * segmentDuration
      let segmentEmotions := (emos.filter (fun (e : FrameEmotion) =>
        decide (segmentStart ≤ e.timestamp) && decide (e.timestamp < segmentEnd))).map
          FrameEmotion.emotion
      let dominant := if segmentEmotions.isEmpty then "neutral" else mostCommon segmentEmotions
      { segment := i + 1,
        start_time := pyRound2 segmentStart,
        end_time := pyRound2 segmentEnd,
        emotion := dominant })

/-- Embedding of the aggregation tail of `FacialAnalyzer.analyze_video`
(everything after the frame loop): given the collected classified frames, the
computed duration and the container's total frame count, return the error
variant on an empty sequence, otherwise the statistics record.  `Option`
models a possible Python exception (only `_calculate_average_scores` can
raise here). -/
def aggregateEmotions (emos : List FrameEmotion) (duration : ℚ) (totalFrames : Nat) :
    Option FacialResult :=
  if emos.isEmpty then
    some (.failed { error := "No faces detected in video",
                    duration := duration,
                    frames_analyzed := 0 })
  else
    (calculateAverageScores emos).map (fun avg =>
      .ok { duration := pyRound2 duration,
            frames_analyzed := emos.length,
            total_frames := totalFrames,
            dominant_emotion := mostCommon (emos.map FrameEmotion.emotion),
            emotion_percentages := emotionPercentages (emos.map FrameEmotion.emotion),
            average_scores := avg,
            timeline := createTimeline emos duration 10 })

/-! ## Interpretation Rule Engine (`voice_analyzer.py`, `_interpret_features`) -/

/-- The five qualitative strings returned by `_interpret_features`. -/
structure Interpretation where
  pitch : String
  energy : String
  speaking_rate : String
  spectral : String
  overall : String
deriving DecidableEq

/-- Pitch bracket of `_interpret_features` (the initial if/elif/else chain). -/
def pitchBase (pitch : ℚ) : String :=
  if pitch > 180 then "high (possible excitement or stress)"
  else if pitch > 120 then "moderate (neutral to confident)"
  else "low (calm or possibly monotone)"

/-- Pitch interpretation: the bracket plus the variation suffix. -/
def pitchInterp (pitch pitch_std : ℚ) : String :=
  let base := pitchBase pitch
  if pitch_std > 30 then base ++ " with high variation (expressive)"
  else if pitch_std < 15 then base ++ " with low variation (monotone)"
  else base

/-- Energy interpretation chain of `_interpret_features`. -/
def energyInterp (energy : ℚ) : String :=
  if energy > 0.05 then "high (confident and clear)"
  else if energy > 0.02 then "moderate (balanced)"
  else "low (soft or hesitant)"

/-- Speaking-rate interpretation chain of `_interpret_features`. -/
def rateInterp (zcr : ℚ) : String :=
  if zcr > 0.1 then "fast (energetic or nervous)"
  else if zcr > 0.05 then "moderate (comfortable pace)"
  else "slow (deliberate or uncertain)"

/-- Spectral-centroid interpretation chain of `_interpret_features`. -/
def spectralInterp (spectral_centroid : ℚ) : String :=
  if spectral_centroid > 3000 then "bright (clear articulation)"
  else if spectral_centroid > 2000 then "balanced"
  else "dark (muffled or low resonance)"

/-- Composite confidence score of `_interpret_features`: one point per
satisfied condition among the four threshold tests. -/
def confidenceScore (pitch pitch_std energy zcr : ℚ) : Nat :=
  (if 120 < pitch ∧ pitch < 200 then 1 else 0)
  + (if energy > 0.03 then 1 else 0)
  + (if 0.05 < zcr ∧ zcr < 0.1 then 1 else 0)
  + (if pitch_std > 15 then 1 else 0)

/-- Embedding of `VoiceAnalyzer._interpret_features`: a pure function of the
seven scalar statistics to five qualitative strings; `energy_std` and `tempo`
are accepted (as in the Python signature) but never consulted. -/
def interpretFeatures (pitch pitch_std energy energy_std zcr spectral_centroid tempo : ℚ) :
    Interpretation :=
  { pitch := pitchInterp pitch pitch_std,
    energy := energyInterp energy,
    speaking_rate := rateInterp zcr,
    spectral := spectralInterp spectral_centroid,
    overall :=
      if confidenceScore pitch pitch_std energy zcr ≥ 3 then "confident and engaging"
      else if confidenceScore pitch pitch_std energy zcr ≥ 2 then "moderate confidence"
      else "room for improvement in vocal presence" }

/-! ## Data model (voice side and feedback) -/

/-- The voice error variant `{'error', 'has_audio': False}`. -/
structure VoiceError where
  error : String
  has_audio : Bool
deriving DecidableEq

/-- The fields of the successful voice summary that the feedback generator
consults: the three nested `interpretation` strings and `overall_tone`
(the purely numeric display fields of `_analyze_audio` are omitted as the
composer never reads them). -/
structure VoiceSummary where
  pitch_interpretation : String
  energy_interpretation : String
  rate_interpretation : String
  overall_tone : String
deriving DecidableEq

/-- Result of voice analysis as consumed by the feedback generator. -/
inductive VoiceResult where
  | failed : VoiceError → VoiceResult
  | ok : VoiceSummary → VoiceResult
deriving DecidableEq

/-- Packaging step of `VoiceAnalyzer._analyze_audio`: the interpretation
strings that end up in the returned dict, as functions of the seven summary
statistics. -/
def analyzeAudioSummary (pitch pitch_std energy energy_std zcr spectral_centroid tempo : ℚ) :
    VoiceSummary :=
  let interp := interpretFeatures pitch pitch_std energy energy_std zcr spectral_centroid tempo
  { pitch_interpretation := interp.pitch,
    energy_interpretation := interp.energy,
    rate_interpretation := interp.speaking_rate,
    overall_tone := interp.overall }

/-- One coaching note (`feedback_generator.py` feedback item dicts). -/
structure FeedbackItem where
  category : String
  observation : String
  insight : String
  tip : String
deriving DecidableEq

/-- One actionable recommendation `{title, description}`. -/
structure Recommendation where
  title : String
  description : String
deriving DecidableEq

/-- The `{feedback, strengths, improvements}` triple returned by the two
branch helpers of `FeedbackGenerator`. -/
structure FeedbackBundle where
  feedback : List FeedbackItem
  strengths : List String
  improvements : List String
deriving DecidableEq

/-- The full report returned by `FeedbackGenerator.generate_feedback`. -/
structure FeedbackReport where
  summary : String
  facial_feedback : List FeedbackItem
  voice_feedback : List FeedbackItem
  recommendations : List Recommendation
  strengths : List String
  areas_for_improvement : List String
deriving DecidableEq

/-! ## Feedback Composer (`feedback_generator.py`) -/

/-- The `emotion_insights` table built in `FeedbackGenerator.__init__`:
label, positive insight, tip. -/
def emotionInsights : List (String × String × String) :=
  [("happy", "Great! You appeared happy and positive.",
    "Maintain this positive energy throughout your communication."),
   ("neutral", "You maintained a neutral expression.",
    "Consider showing more emotional engagement to connect better with your audience."),
   ("sad", "You showed some sadness or concern.",
    "If this is unintentional, practice maintaining a more neutral or positive expression."),
   ("angry", "You appeared frustrated or intense.",
    "Try to relax your facial muscles and maintain a calmer demeanor."),
   ("surprise", "You showed surprise or interest.",
    "This can be engaging, but use it purposefully to emphasize key points."),
   ("fear", "You appeared nervous or anxious.",
    "Practice relaxation techniques before important conversations to appear more confident."),
   ("disgust", "You showed some negative reaction.",
    "Be mindful of facial expressions that might convey unintended negativity.")]

/-- Embedding of `FeedbackGenerator._generate_facial_feedback`. -/
def generateFacialFeedback (s : FacialSummary) : FeedbackBundle :=
  let dominant := s.dominant_emotion
  let pcts := s.emotion_percentages
  let dominantItems :=
    match emotionInsights.lookup dominant with
    | some insight =>
      [{ category := "Dominant Emotion",
         observation := "Your dominant emotion was \x27" ++ dominant ++ "\x27 ("
           ++ formatPct1 ((pcts.lookup dominant).getD 0) ++ "% of the time).",
         insight := insight.1,
         tip := insight.2 }]
    | none => []
  let dominantStrengths :=
    match emotionInsights.lookup dominant with
    | some _ =>
      if dominant = "happy" ∨ dominant = "neutral"
      then ["Maintained " ++ dominant ++ " expression"] else []
    | none => []
  let dominantImprovements :=
    match emotionInsights.lookup dominant with
    | some _ =>
      if dominant = "happy" ∨ dominant = "neutral"
      then [] else ["Work on managing " ++ dominant ++ " expressions"]
    | none => []
  let consistencyItems :=
    if pcts.length > 5 then
      [{ category := "Emotional Consistency",
         observation := "Your emotions varied significantly throughout the video.",
         insight := "This could indicate natural expressiveness or lack of emotional control.",
         tip := "For professional settings, aim for more consistent emotional expression." }]
    else []
  let consistencyStrengths :=
    if pcts.length > 5 then [] else ["Consistent emotional expression"]
  let consistencyImprovements :=
    if pcts.length > 5 then ["Practice emotional consistency"] else []
  let positiveEmotions := (pcts.lookup "happy").getD 0
  let positiveStrengths :=
    if positiveEmotions > 40 then ["Strong positive emotional presence"] else []
  let positiveImprovements :=
    if positiveEmotions > 40 then []
    else if positiveEmotions < 10 then ["Consider showing more positive engagement"] else []
  { feedback := dominantItems ++ consistencyItems,
    strengths := dominantStrengths ++ consistencyStrengths ++ positiveStrengths,
    improvements := dominantImprovements ++ consistencyImprovements ++ positiveImprovements }

/-- The fixed `Pitch Variation` item appended when the pitch interpretation
contains `monotone`. -/
def pitchVariationItem : FeedbackItem :=
  { category := "Pitch Variation",
    observation := "Your pitch variation was limited.",
    insight := "Monotone delivery can make content less engaging.",
    tip := "Practice emphasizing key words and varying your pitch to maintain interest." }

/-- Embedding of `FeedbackGenerator._generate_voice_feedback`. -/
def generateVoiceFeedback (v : VoiceSummary) : FeedbackBundle :=
  let toneItems : List FeedbackItem :=
    [{ category := "Overall Vocal Tone",
       observation := "Your vocal tone was " ++ v.overall_tone ++ ".",
       insight := "Vocal tone significantly impacts how your message is received.",
       tip := "Continue developing vocal confidence through practice and preparation." }]
  let toneStrengths :=
    if strContains v.overall_tone "confident" then ["Confident vocal tone"] else []
  let toneImprovements :=
    if strContains v.overall_tone "confident" then [] else ["Build more vocal confidence"]
  let pitchItems :=
    if strContains (pyLower v.pitch_interpretation) "monotone" then [pitchVariationItem] else []
  let pitchStrengths :=
    if strContains (pyLower v.pitch_interpretation) "monotone" then []
    else if strContains (pyLower v.pitch_interpretation) "expressive"
    then ["Good pitch variation"] else []
  let pitchImprovements :=
    if strContains (pyLower v.pitch_interpretation) "monotone"
    then ["Increase pitch variation"] else []
  let energyStrengths :=
    if strContains (pyLower v.energy_interpretation) "confident"
    then ["Clear and confident vocal energy"] else []
  let energyImprovements :=
    if strContains (pyLower v.energy_interpretation) "confident" then []
    else if strContains (pyLower v.energy_interpretation) "soft"
         || strContains (pyLower v.energy_interpretation) "hesitant"
    then ["Project voice with more energy"] else []
  let rateItems : List FeedbackItem :=
    if strContains (pyLower v.rate_interpretation) "fast" then
      [{ category := "Speaking Rate",
         observation := "You spoke at a fast pace.",
         insight := "Fast speaking can indicate nervousness or enthusiasm.",
         tip := "Slow down and add strategic pauses for emphasis and clarity." }]
    else if strContains (pyLower v.rate_interpretation) "slow" then
      [{ category := "Speaking Rate",
         observation := "You spoke at a slower pace.",
         insight := "Slow speaking can be deliberate or indicate uncertainty.",
         tip := "Ensure your pace matches your message and maintains engagement." }]
    else []
  let rateStrengths :=
    if strContains (pyLower v.rate_interpretation) "fast" then []
    else if strContains (pyLower v.rate_interpretation) "slow" then []
    else ["Comfortable speaking pace"]
  let rateImprovements :=
    if strContains (pyLower v.rate_interpretation) "fast"
    then ["Moderate speaking pace"] else []
  { feedback := toneItems ++ pitchItems ++ rateItems,
    strengths := toneStrengths ++ pitchStrengths ++ energyStrengths ++ rateStrengths,
    improvements := toneImprovements ++ pitchImprovements ++ energyImprovements
      ++ rateImprovements }

/-- Embedding of `FeedbackGenerator._generate_summary`. -/
def generateSummary (facial : FacialResult) (voice : VoiceResult)
    (strengths improvements : List String) : String :=
  let facialParts :=
    match facial with
    | .ok s => ["You appeared " ++ s.dominant_emotion ++ " throughout most of the video"]
    | .failed _ => []
  let voiceParts :=
    match voice with
    | .ok v => ["your vocal tone was " ++ v.overall_tone]
    | .failed _ => []
  let summaryParts := facialParts ++ voiceParts
  let conclusion :=
    if strengths.length > improvements.length then
      "Overall, you demonstrated strong communication skills with a few areas for refinement."
    else if improvements.length > strengths.length then
      "There are several areas where you can improve your nonverbal communication for greater impact."
    else
      "You showed balanced nonverbal communication with both strengths and opportunities for growth."
  if summaryParts.isEmpty then conclusion
  else pyCapitalize (String.intercalate ". " summaryParts) ++ ". " ++ conclusion

/-- The fixed `Vary Your Pitch` recommendation. -/
def varyPitchRec : Recommendation :=
  { title := "Vary Your Pitch",
    description := "Practice reading aloud with exaggerated emphasis. Gradually incorporate natural variation into your speaking." }

/-- Embedding of `FeedbackGenerator._generate_recommendations`. -/
def generateRecommendations (facial : FacialResult) (voice : VoiceResult) :
    List Recommendation :=
  let facialRecs :=
    match facial with
    | .failed _ => []
    | .ok s =>
      (if s.dominant_emotion = "fear" ∨ s.dominant_emotion = "sad"
          ∨ s.dominant_emotion = "angry" then
        [{ title := "Practice Relaxation Techniques",
           description := "Before important conversations, take deep breaths and practice positive visualization to appear more calm and confident." }]
      else [])
      ++ (if (s.emotion_percentages.lookup "happy").getD 0 < 20 then
        [{ title := "Increase Positive Expressions",
           description := "Smile more naturally and show genuine interest. This makes you more approachable and engaging." }]
      else [])
  let voiceRecs :=
    match voice with
    | .failed _ => []
    | .ok v =>
      (if strContains (pyLower v.pitch_interpretation) "monotone" then [varyPitchRec] else [])
      ++ (if strContains (pyLower v.energy_interpretation) "soft" then
        [{ title := "Project Your Voice",
           description := "Speak from your diaphragm, not your throat. Practice projecting your voice to fill the room confidently." }]
      else [])
  facialRecs ++ voiceRecs
    ++ [{ title := "Record and Review",
          description := "Regularly record yourself in practice sessions and review your nonverbal communication. Self-awareness is key to improvement." },
        { title := "Practice with Feedback",
          description := "Present to friends or colleagues and ask for honest feedback about your body language and tone." }]

/-- Whether the facial result carries the `error` key. -/
def facialHasError : FacialResult → Bool
  | .failed _ => true
  | .ok _ => false

/-- Whether the voice result carries the `error` key. -/
def voiceHasError : VoiceResult → Bool
  | .failed _ => true
  | .ok _ => false

/-- Embedding of `FeedbackGenerator.generate_feedback`: the dual-error early
return, then the facial branch, the voice branch, the summary and the
recommendations. -/
def generateFeedback (facial : FacialResult) (voice : VoiceResult) : FeedbackReport :=
  if facialHasError facial && voiceHasError voice then
    { summary := "Unable to analyze video. Please ensure the video contains visible faces and clear audio.",
      facial_feedback := [],
      voice_feedback := [],
      recommendations := [],
      strengths := [],
      areas_for_improvement := [] }
  else
    let facialBundle :=
      match facial with
      | .ok s => generateFacialFeedback s
      | .failed _ => { feedback := [], strengths := [], improvements := [] }
    let voiceBundle :=
      match voice with
      | .ok v => generateVoiceFeedback v
      | .failed _ => { feedback := [], strengths := [], improvements := [] }
    let strengths := facialBundle.strengths ++ voiceBundle.strengths
    let improvements := facialBundle.improvements ++ voiceBundle.improvements
    { summary := generateSummary facial voice strengths improvements,
      facial_feedback := facialBundle.feedback,
      voice_feedback := voiceBundle.feedback,
      recommendations := generateRecommendations facial voice,
      strengths := strengths,
      areas_for_improvement := improvements }

/-! ## Request Handler scratch path (`app.py`, `analyze_video`) -/

/-- One upload request: an identifier distinguishing the request and the
client-supplied filename of the `video` field. -/
structure UploadRequest where
  requestId : Nat
  filename : String
deriving DecidableEq

/-- Model of `werkzeug.utils.secure_filename` (third-party): a deterministic
sanitizer of the client-supplied name; modelled here as keeping ASCII
alphanumerics, dots, dashes and underscores.  Only its determinism matters
for the claims below. -/
def secureFilename (s : String) : String :=
  String.mk (s.toList.filter (fun c => c.isAlphanum || c == '.' || c == '-' || c == '_'))

/-- Embedding of the scratch-path computation of `analyze_video` in `app.py`:
`os.path.join(app.config[UPLOAD_FOLDER], secure_filename(file.filename))`.
The path depends only on the upload folder and the uploaded filename. -/
def tempVideoPath (uploadFolder : String) (r : UploadRequest) : String :=
  uploadFolder ++ "/" ++ secureFilename r.filename

/-! ## Claim theorems -/

/-- C7: for an empty classified-frame sequence the Emotion Aggregator returns
the facial error variant with `frames_analyzed = 0` and the video's duration;
the `some` shows that no exception is raised on this path. -/
theorem C7_empty_frames_error_variant (duration : ℚ) (totalFrames : Nat) :
    aggregateEmotions [] duration totalFrames
      = some (.failed { error := "No faces detected in video",
                        duration := duration,
                        frames_analyzed := 0 }) := rfl

/-- C8: the Interpretation Rule Engine's output does not depend on the
energy standard deviation or the tempo: two input tuples differing only in
`energy_std` and/or `tempo` yield identical interpretations. -/
theorem C8_energy_std_tempo_unused
    (pitch pitch_std energy zcr spectral_centroid : ℚ)
    (energy_std₁ energy_std₂ tempo₁ tempo₂ : ℚ) :
    interpretFeatures pitch pitch_std energy energy_std₁ zcr spectral_centroid tempo₁
      = interpretFeatures pitch pitch_std energy energy_std₂ zcr spectral_centroid tempo₂ := rfl

/-- C5: when both inputs are error variants, the Feedback Composer returns
exactly the fixed apology summary with every other field an empty sequence;
in particular the two always-present generic recommendations are absent
because the dual-error path returns before recommendations are generated. -/
theorem C5_dual_error_report (fe : FacialError) (ve : VoiceError) :
    generateFeedback (.failed fe) (.failed ve)
      = { summary := "Unable to analyze video. Please ensure the video contains visible faces and clear audio.",
          facial_feedback := [],
          voice_feedback := [],
          recommendations := [],
          strengths := [],
          areas_for_improvement := [] } := rfl

/-- C3: every Rule Engine threshold is an exact cutoff with boundary values
falling to the lower bracket: pitch mean exactly 180 yields the moderate
bracket (for every pitch standard deviation, the pitch string extends the
moderate text, never the high text), any pitch mean strictly above 180 yields
the high bracket, energy mean exactly 0.05 yields the moderate energy
bracket, zero-crossing rate exactly 0.1 yields the moderate rate bracket, and
spectral centroid exactly 3000 yields the balanced bracket. -/
theorem C3_threshold_boundaries
    (pitch_std energy energy_std zcr centroid tempo x : ℚ) (hx : 180 < x) :
    (∃ rest, (interpretFeatures 180 pitch_std energy energy_std zcr centroid tempo).pitch
        = "moderate (neutral to confident)" ++ rest)
  ∧ (∃ rest, (interpretFeatures x pitch_std energy energy_std zcr centroid tempo).pitch
        = "high (possible excitement or stress)" ++ rest)
  ∧ (interpretFeatures 180 pitch_std 0.05 energy_std zcr centroid tempo).energy
        = "moderate (balanced)"
  ∧ (interpretFeatures 180 pitch_std energy energy_std 0.1 centroid tempo).speaking_rate
        = "moderate (comfortable pace)"
  ∧ (interpretFeatures 180 pitch_std energy energy_std zcr 3000 tempo).spectral
        = "balanced" := by
  refine ⟨?_, ?_, ?_, ?_, ?_⟩
  · show ∃ rest, pitchInterp 180 pitch_std = "moderate (neutral to confident)" ++ rest
    have hb : pitchBase 180 = "moderate (neutral to confident)" := by
      norm_num [pitchBase]
    unfold pitchInterp
    rw [hb]
    split_ifs
    · exact ⟨" with high variation (expressive)", rfl⟩
    · exact ⟨" with low variation (monotone)", rfl⟩
    · exact ⟨"", by decide⟩
  · show ∃ rest, pitchInterp x pitch_std = "high (possible excitement or stress)" ++ rest
    have hb : pitchBase x = "high (possible excitement or stress)" := by
      unfold pitchBase
      rw [if_pos hx]
    unfold pitchInterp
    rw [hb]
    split_ifs
    · exact ⟨" with high variation (expressive)", rfl⟩
    · exact ⟨" with low variation (monotone)", rfl⟩
    · exact ⟨"", by decide⟩
  · show energyInterp 0.05 = "moderate (balanced)"
    norm_num [energyInterp]
  · show rateInterp 0.1 = "moderate (comfortable pace)"
    norm_num [rateInterp]
  · show spectralInterp 3000 = "balanced"
    norm_num [spectralInterp]

/-- C3 witness: the boundary theorem applied with pitch standard deviation 10
and strict-high pitch 190. -/
theorem C3_threshold_boundaries_witness :
    (180 : ℚ) < 190
  ∧ ((∃ rest, (interpretFeatures 180 10 0.04 0 0.07 2500 100).pitch
        = "moderate (neutral to confident)" ++ rest)
  ∧ (∃ rest, (interpretFeatures 190 10 0.04 0 0.07 2500 100).pitch
        = "high (possible excitement or stress)" ++ rest)
  ∧ (interpretFeatures 180 10 0.05 0 0.07 2500 100).energy = "moderate (balanced)"
  ∧ (interpretFeatures 180 10 0.04 0 0.1 2500 100).speaking_rate
        = "moderate (comfortable pace)"
  ∧ (interpretFeatures 180 10 0.04 0 0.07 3000 100).spectral = "balanced") :=
  ⟨by norm_num, C3_threshold_boundaries 10 0.04 0 0.07 2500 100 190 (by norm_num)⟩

/-- C4: the composite confidence score equals the number of satisfied
conditions among the four threshold tests, the overall tone is the stated
function of that score (at least 3 gives confident and engaging, exactly 2
gives moderate confidence, otherwise room for improvement), and the concrete
input pitch 150, energy 0.04, zcr 0.07, pitch_std 20 scores 4 and is
confident and engaging. -/
theorem C4_confidence_score (pitch pitch_std energy energy_std zcr centroid tempo : ℚ) :
    confidenceScore pitch pitch_std energy zcr
      = List.count true
          [decide (120 < pitch ∧ pitch < 200), decide (energy > 0.03),
           decide (0.05 < zcr ∧ zcr < 0.1), decide (pitch_std > 15)]
  ∧ (interpretFeatures pitch pitch_std energy energy_std zcr centroid tempo).overall
      = (if 3 ≤ confidenceScore pitch pitch_std energy zcr then "confident and engaging"
         else if confidenceScore pitch pitch_std energy zcr = 2 then "moderate confidence"
         else "room for improvement in vocal presence")
  ∧ confidenceScore 150 20 0.04 0.07 = 4
  ∧ (interpretFeatures 150 20 0.04 energy_std 0.07 centroid tempo).overall
      = "confident and engaging" := by
  refine ⟨?_, ?_, ?_, ?_⟩
  · unfold confidenceScore
    rcases Classical.em (120 < pitch ∧ pitch < 200) with h1 | h1 <;>
      rcases Classical.em (energy > 0.03) with h2 | h2 <;>
      rcases Classical.em (0.05 < zcr ∧ zcr < 0.1) with h3 | h3 <;>
      rcases Classical.em (pitch_std > 15) with h4 | h4 <;>
      simp [h1, h2, h3, h4, List.count_cons]
  · show (if confidenceScore pitch pitch_std energy zcr ≥ 3 then "confident and engaging"
      else if confidenceScore pitch pitch_std energy zcr ≥ 2 then "moderate confidence"
      else "room for improvement in vocal presence") = _
    split_ifs <;> first | rfl | omega
  · norm_num [confidenceScore]
  · show (if confidenceScore 150 20 0.04 0.07 ≥ 3 then "confident and engaging"
      else if confidenceScore 150 20 0.04 0.07 ≥ 2 then "moderate confidence"
      else "room for improvement in vocal presence") = _
    norm_num [confidenceScore]

theorem firstKeys_nodup (l : List String) : (firstKeys l).Nodup := by
  induction l with
  | nil => simp [firstKeys]
  | cons x xs ih =>
    simp only [firstKeys, List.nodup_cons]
    refine ⟨fun hmem => ?_, ih.filter _⟩
    have := List.of_mem_filter hmem
    simp at this

theorem mem_firstKeys {a : String} {l : List String} : a ∈ firstKeys l ↔ a ∈ l := by
  induction l with
  | nil => simp [firstKeys]
  | cons x xs ih =>
    simp only [firstKeys, List.mem_cons, List.mem_filter, ih]
    by_cases hax : a = x
    · simp [hax]
    · simp [hax]

theorem firstKeys_toFinset (l : List String) : (firstKeys l).toFinset = l.toFinset := by
  ext a
  simp [List.mem_toFinset, mem_firstKeys]

/-- C1: for every non-empty classified-frame sequence, the label percentages
computed by the Emotion Aggregator sum to exactly 100 across all observed
labels. -/
theorem C1_label_percentages_sum (emos : List FrameEmotion) (h : emos ≠ []) :
    ((emotionPercentages (emos.map FrameEmotion.emotion)).map Prod.snd).sum = 100 := by
  set l := emos.map FrameEmotion.emotion with hl
  have hn : (l.length : ℚ) ≠ 0 := by
    have : l.length = emos.length := by simp [hl]
    rw [this]
    exact_mod_cast fun hz => h (List.eq_nil_of_length_eq_zero hz)
  have hsum : ((firstKeys l).map (fun e => ((l.count e : ℚ) / (l.length : ℚ)) * 100)).sum
      = ∑ e ∈ l.toFinset, ((l.count e : ℚ) / (l.length : ℚ)) * 100 := by
    rw [← firstKeys_toFinset l,
      List.sum_toFinset (fun e => ((l.count e : ℚ) / (l.length : ℚ)) * 100) (firstKeys_nodup l)]
  calc ((emotionPercentages l).map Prod.snd).sum
      = ((firstKeys l).map (fun e => ((l.count e : ℚ) / (l.length : ℚ)) * 100)).sum := by
        simp [emotionPercentages, Function.comp_def]
    _ = ∑ e ∈ l.toFinset, ((l.count e : ℚ) / (l.length : ℚ)) * 100 := hsum
    _ = (∑ e ∈ l.toFinset, (l.count e : ℚ)) / (l.length : ℚ) * 100 := by
        rw [Finset.sum_div, Finset.sum_mul]
    _ = ((l.length : ℚ)) / (l.length : ℚ) * 100 := by
        norm_cast
        rw [List.sum_toFinset_count_eq_length]
    _ = 100 := by
        rw [div_self hn, one_mul]

/-- C1 witness: a two-frame sequence with labels happy and sad; the
percentages 50 and 50 sum to 100. -/
theorem C1_label_percentages_sum_witness :
    ([⟨0, 0, "happy", []⟩, ⟨5, 1/6, "sad", []⟩] : List FrameEmotion) ≠ []
  ∧ ((emotionPercentages
        (([⟨0, 0, "happy", []⟩, ⟨5, 1/6, "sad", []⟩] : List FrameEmotion).map
          FrameEmotion.emotion)).map Prod.snd).sum = 100 :=
  ⟨by simp, C1_label_percentages_sum [⟨0, 0, "happy", []⟩, ⟨5, 1/6, "sad", []⟩] (by simp)⟩

/-- C9 counterexample: the scratch path of `analyze_video` in `app.py` is a
deterministic function of the uploaded filename alone, so two distinct
requests that upload files with the same name write to the same scratch
path — refuting the claim that two different requests never share a scratch
path by construction. -/
theorem C9_counterexample :
    (({ requestId := 1, filename := "clip.mp4" } : UploadRequest)
        ≠ { requestId := 2, filename := "clip.mp4" })
  ∧ tempVideoPath "/tmp" { requestId := 1, filename := "clip.mp4" }
      = tempVideoPath "/tmp" { requestId := 2, filename := "clip.mp4" } := by
  refine ⟨fun hcontra => ?_, rfl⟩
  exact absurd (congrArg UploadRequest.requestId hcontra) (by decide)

/-- C9 amended: the scratch path used by the Request Handler is a
deterministic function of the uploaded filename (the sanitized filename
joined to the fixed upload folder); any two requests whose uploaded
filenames agree are assigned the same scratch path, so distinctness of
scratch paths across requests is not guaranteed by construction. -/
theorem C9_amended_path_deterministic (uploadFolder : String) (r₁ r₂ : UploadRequest)
    (h : r₁.filename = r₂.filename) :
    tempVideoPath uploadFolder r₁ = tempVideoPath uploadFolder r₂ := by
  unfold tempVideoPath
  rw [h]

/-- C9 witness: two concrete requests with the same uploaded filename. -/
theorem C9_amended_path_deterministic_witness :
    ({ requestId := 1, filename := "clip.mp4" } : UploadRequest).filename
        = ({ requestId := 2, filename := "clip.mp4" } : UploadRequest).filename
  ∧ tempVideoPath "/tmp" { requestId := 1, filename := "clip.mp4" }
      = tempVideoPath "/tmp" { requestId := 2, filename := "clip.mp4" } :=
  ⟨rfl, C9_amended_path_deterministic "/tmp"
    { requestId := 1, filename := "clip.mp4" }
    { requestId := 2, filename := "clip.mp4" } rfl⟩

theorem emotionInsights_lookup_isSome {d : String} :
    (emotionInsights.lookup d).isSome
      ↔ d ∈ (["happy", "neutral", "sad", "angry", "surprise", "fear", "disgust"] : List String) := by
  simp only [emotionInsights, List.lookup_isSome_iff, List.mem_cons, List.not_mem_nil,
    or_false, beq_iff_eq]
  constructor
  · rintro ⟨p, hp, rfl⟩
    rcases hp with h | h | h | h | h | h | h <;> subst h <;> simp
  · rintro (rfl | rfl | rfl | rfl | rfl | rfl | rfl)
    · exact ⟨_, Or.inl rfl, rfl⟩
    · exact ⟨_, Or.inr (Or.inl rfl), rfl⟩
    · exact ⟨_, Or.inr (Or.inr (Or.inl rfl)), rfl⟩
    · exact ⟨_, Or.inr (Or.inr (Or.inr (Or.inl rfl))), rfl⟩
    · exact ⟨_, Or.inr (Or.inr (Or.inr (Or.inr (Or.inl rfl)))), rfl⟩
    · exact ⟨_, Or.inr (Or.inr (Or.inr (Or.inr (Or.inr (Or.inl rfl))))), rfl⟩
    · exact ⟨_, Or.inr (Or.inr (Or.inr (Or.inr (Or.inr (Or.inr rfl))))), rfl⟩

/-- C6: for every non-error facial summary, the composer emits one Dominant
Emotion feedback item exactly when the dominant label is one of the seven
recognized labels (an unrecognized label produces no such item), and
classifies the dominant label as a strength when it is happy or neutral and
as an improvement area otherwise. -/
theorem C6_dominant_emotion_classification (s : FacialSummary) :
    ((generateFacialFeedback s).feedback.countP
        (fun it => it.category == "Dominant Emotion")
      = if s.dominant_emotion
            ∈ (["happy", "neutral", "sad", "angry", "surprise", "fear", "disgust"] : List String)
        then 1 else 0)
  ∧ (if s.dominant_emotion
        ∈ (["happy", "neutral", "sad", "angry", "surprise", "fear", "disgust"] : List String) then
      (if s.dominant_emotion ∈ (["happy", "neutral"] : List String)
       then ("Maintained " ++ s.dominant_emotion ++ " expression")
              ∈ (generateFacialFeedback s).strengths
       else ("Work on managing " ++ s.dominant_emotion ++ " expressions")
              ∈ (generateFacialFeedback s).improvements)
     else True) := by
  by_cases hmem : s.dominant_emotion
      ∈ (["happy", "neutral", "sad", "angry", "surprise", "fear", "disgust"] : List String)
  · simp only [List.mem_cons, List.not_mem_nil, or_false] at hmem
    rcases hmem with h | h | h | h | h | h | h <;>
      refine ⟨?_, ?_⟩ <;>
      simp [generateFacialFeedback, h, emotionInsights, List.lookup, List.countP_append,
        List.countP_cons,
        apply_ite (List.countP (fun (it : FeedbackItem) => it.category == "Dominant Emotion"))]
  · have hnone : emotionInsights.lookup s.dominant_emotion = none := by
      rw [← Option.not_isSome_iff_eq_none]
      intro hc
      exact hmem (emotionInsights_lookup_isSome.mp hc)
    refine ⟨?_, ?_⟩
    · simp [generateFacialFeedback, hnone, hmem, List.countP_append, List.countP_cons,
        apply_ite (List.countP (fun (it : FeedbackItem) => it.category == "Dominant Emotion"))]
    · simp [hmem]

/-- C10: for every acoustic input with pitch mean at most 120 the pitch
interpretation contains the substring monotone (from the low-pitch bracket
text) regardless of the pitch standard deviation, so the Feedback Composer
emits the Pitch Variation improvement item and the Vary Your Pitch
recommendation — including in the expressive case pitch_std > 30 (exercised
by the witness). -/
theorem C10_low_pitch_always_monotone
    (pitch pitch_std energy energy_std zcr centroid tempo : ℚ) (facial : FacialResult)
    (hp : pitch ≤ 120) :
    strContains
        (pyLower (analyzeAudioSummary pitch pitch_std energy energy_std zcr
          centroid tempo).pitch_interpretation) "monotone" = true
  ∧ pitchVariationItem
      ∈ (generateVoiceFeedback (analyzeAudioSummary pitch pitch_std energy energy_std zcr
          centroid tempo)).feedback
  ∧ "Increase pitch variation"
      ∈ (generateVoiceFeedback (analyzeAudioSummary pitch pitch_std energy energy_std zcr
          centroid tempo)).improvements
  ∧ varyPitchRec
      ∈ generateRecommendations facial
          (.ok (analyzeAudioSummary pitch pitch_std energy energy_std zcr centroid tempo)) := by
  have hbase : pitchBase pitch = "low (calm or possibly monotone)" := by
    unfold pitchBase
    rw [if_neg (by push_neg; linarith), if_neg (by push_neg; linarith)]
  have hinterp : (analyzeAudioSummary pitch pitch_std energy energy_std zcr
      centroid tempo).pitch_interpretation = pitchInterp pitch pitch_std := rfl
  have hmono : strContains (pyLower (pitchInterp pitch pitch_std)) "monotone" = true := by
    unfold pitchInterp
    rw [hbase]
    split_ifs <;> decide
  refine ⟨by rw [hinterp]; exact hmono, ?_, ?_, ?_⟩
  · simp only [generateVoiceFeedback, hinterp, hmono, if_true, List.mem_append,
      List.mem_singleton]
    tauto
  · simp only [generateVoiceFeedback, hinterp, hmono, if_true, List.mem_append,
      List.mem_singleton]
    tauto
  · simp only [generateRecommendations, hinterp, hmono, if_true, List.mem_append,
      List.mem_singleton]
    tauto

/-- C10 witness: pitch 100 with the expressive variation pitch_std 40. -/
theorem C10_low_pitch_always_monotone_witness :
    (100 : ℚ) ≤ 120
  ∧ (strContains
        (pyLower (analyzeAudioSummary 100 40 0.04 0 0.07 2500 100).pitch_interpretation)
        "monotone" = true
    ∧ pitchVariationItem
        ∈ (generateVoiceFeedback (analyzeAudioSummary 100 40 0.04 0 0.07 2500 100)).feedback
    ∧ "Increase pitch variation"
        ∈ (generateVoiceFeedback (analyzeAudioSummary 100 40 0.04 0 0.07 2500 100)).improvements
    ∧ varyPitchRec
        ∈ generateRecommendations
            (.failed { error := "No faces detected in video", duration := 0, frames_analyzed := 0 })
            (.ok (analyzeAudioSummary 100 40 0.04 0 0.07 2500 100))) :=
  ⟨by norm_num,
   C10_low_pitch_always_monotone 100 40 0.04 0 0.07 2500 100
     (.failed { error := "No faces detected in video", duration := 0, frames_analyzed := 0 })
     (by norm_num)⟩

/-- C2 counterexample: the stored `start_time` of a timeline entry is the
segment boundary rounded to two decimals, not the exact value `i·duration/10`
the claim states.  For a one-frame video of duration 0.15 s, segment index 1
has exact start 0.015 but the timeline stores 0.02. -/
theorem C2_counterexample :
    ((createTimeline [⟨0, 0, "happy", []⟩] (3/20) 10)[1]?).map TimelineSegment.start_time
      = some (2/100)
  ∧ (2/100 : ℚ) ≠ (1 : ℚ) * ((3/20) / 10) := by
  have hne : ¬(([⟨0, 0, "happy", []⟩] : List FrameEmotion).isEmpty = true) := by simp
  constructor
  · unfold createTimeline
    rw [if_neg hne, List.getElem?_map, List.getElem?_range (by norm_num : 1 < 10)]
    simp only [Option.map_some', Option.some.injEq]
    show pyRound2 (((1:Nat) : ℚ) * ((3/20) / ((10:Nat) : ℚ))) = 2/100
    have harg : (((1:Nat) : ℚ) * ((3/20) / ((10:Nat) : ℚ))) * 100 = 3/2 := by
      push_cast
      norm_num
    unfold pyRound2
    rw [harg]
    have hfl : ⌊(3/2 : ℚ)⌋ = 1 := by
      norm_num [Int.floor_eq_iff]
    unfold roundHalfEven
    rw [hfl]
    norm_num
  · norm_num

/-- C2 amended: for every non-empty classified-frame sequence and every
duration, the timeline has exactly 10 entries; entry `i` carries segment
number `i+1`, the boundaries `i·duration/10` and `(i+1)·duration/10` rounded
to two decimals as its stored times (hence stored times are contiguous:
entry `i`'s `end_time` is computed from the same boundary as entry `i+1`'s
`start_time`), and the label neutral whenever no classified frame's timestamp
falls inside its half-open selection range; and the unrounded half-open
selection ranges `[i·duration/10, (i+1)·duration/10)` for `i < 10` are
non-overlapping and collectively cover `[0, duration)`: every timestamp in
`[0, duration)` lies in exactly one of them. -/
theorem C2_timeline_amended (emos : List FrameEmotion) (duration : ℚ) (h : emos ≠ []) :
    (createTimeline emos duration 10).length = 10
  ∧ (∀ i : Nat, i < 10 →
      ∃ seg : TimelineSegment,
        (createTimeline emos duration 10)[i]? = some seg
        ∧ seg.segment = i + 1
        ∧ seg.start_time = pyRound2 ((i : ℚ) * (duration / 10))
        ∧ seg.end_time = pyRound2 (((i : ℚ) + 1) * (duration / 10))
        ∧ ((emos.filter (fun (e : FrameEmotion) =>
              decide ((i : ℚ) * (duration / 10) ≤ e.timestamp)
              && decide (e.timestamp < ((i : ℚ) + 1) * (duration / 10)))) = []
            → seg.emotion = "neutral"))
  ∧ (∀ t : ℚ, 0 ≤ t → t < duration →
      ∃! i : Nat, i < 10
        ∧ (i : ℚ) * (duration / 10) ≤ t ∧ t < ((i : ℚ) + 1) * (duration / 10)) := by
  have hne : ¬(emos.isEmpty = true) := by
    simp [List.isEmpty_iff, h]
  refine ⟨?_, ?_, ?_⟩
  · unfold createTimeline
    rw [if_neg hne]
    simp
  · intro i hi
    unfold createTimeline
    rw [if_neg hne]
    rw [List.getElem?_map, List.getElem?_range hi]
    simp only [Option.map_some', Option.some.injEq, Nat.cast_ofNat]
    refine ⟨_, rfl, rfl, rfl, rfl, ?_⟩
    intro hfilter
    simp only [hfilter, List.map_nil, List.isEmpty_nil, if_true]
  · intro t ht0 htd
    have hd : 0 < duration := lt_of_le_of_lt ht0 htd
    set r : ℚ := 10 * t / duration with hr
    have hr0 : 0 ≤ r := by positivity
    have hk0 : 0 ≤ ⌊r⌋ := Int.floor_nonneg.mpr hr0
    have hcast : ((⌊r⌋.toNat : ℚ)) = ((⌊r⌋ : ℚ)) := by
      exact_mod_cast congrArg Int.cast (Int.toNat_of_nonneg hk0)
    have hrlt : r < 10 := by
      rw [hr, div_lt_iff₀ hd]
      nlinarith
    have hklt : ⌊r⌋ < 10 := by
      exact_mod_cast Int.floor_lt.mpr (by exact_mod_cast hrlt)
    refine ⟨⌊r⌋.toNat, ⟨?_, ?_, ?_⟩, ?_⟩
    · omega
    · rw [mul_div_assoc']
      rw [div_le_iff₀ (by norm_num : (0:ℚ) < 10)]
      have h1 : ((⌊r⌋ : ℚ)) ≤ r := Int.floor_le r
      rw [hcast]
      rw [hr, le_div_iff₀ hd] at h1
      nlinarith
    · rw [mul_div_assoc']
      rw [lt_div_iff₀ (by norm_num : (0:ℚ) < 10)]
      have h1 : r < (⌊r⌋ : ℚ) + 1 := Int.lt_floor_add_one r
      rw [hcast]
      rw [hr, div_lt_iff₀ hd] at h1
      nlinarith
    · rintro j ⟨hj10, hjle, hjlt⟩
      rw [mul_div_assoc', div_le_iff₀ (by norm_num : (0:ℚ) < 10)] at hjle
      rw [mul_div_assoc', lt_div_iff₀ (by norm_num : (0:ℚ) < 10)] at hjlt
      have hle : ((j : ℚ)) ≤ r := by
        rw [hr, le_div_iff₀ hd]
        nlinarith
      have hlt : r < ((j : ℚ)) + 1 := by
        rw [hr, div_lt_iff₀ hd]
        nlinarith
      have : ⌊r⌋ = (j : ℤ) := by
        rw [Int.floor_eq_iff]
        constructor
        · exact_mod_cast hle
        · push_cast
          exact_mod_cast hlt
      omega

/-- C2 witness: one classified frame and duration 1 s. -/
theorem C2_timeline_amended_witness :
    ([⟨0, 0, "happy", []⟩] : List FrameEmotion) ≠ []
  ∧ ((createTimeline [⟨0, 0, "happy", []⟩] 1 10).length = 10
    ∧ (∀ i : Nat, i < 10 →
        ∃ seg : TimelineSegment,
          (createTimeline ([⟨0, 0, "happy", []⟩] : List FrameEmotion) 1 10)[i]? = some seg
          ∧ seg.segment = i + 1
          ∧ seg.start_time = pyRound2 ((i : ℚ) * ((1 : ℚ) / 10))
          ∧ seg.end_time = pyRound2 (((i : ℚ) + 1) * ((1 : ℚ) / 10))
          ∧ ((([⟨0, 0, "happy", []⟩] : List FrameEmotion).filter (fun (e : FrameEmotion) =>
                decide ((i : ℚ) * ((1 : ℚ) / 10) ≤ e.timestamp)
                && decide (e.timestamp < ((i : ℚ) + 1) * ((1 : ℚ) / 10)))) = []
              → seg.emotion = "neutral"))
    ∧ (∀ t : ℚ, 0 ≤ t → t < 1 →
        ∃! i : Nat, i < 10
          ∧ (i : ℚ) * ((1 : ℚ) / 10) ≤ t ∧ t < ((i : ℚ) + 1) * ((1 : ℚ) / 10))) :=
  ⟨by simp, C2_timeline_amended [⟨0, 0, "happy", []⟩] 1 (by simp)⟩

end EmotiSense
